import Mathlib

/-
  Verification development for the installer's create command
  (cmd/openshift-install/create.go) and the InstallConfig asset
  (pkg/asset/installconfig).

  The Go code is shallowly embedded: each Go function relevant to the
  claims is translated into an executable Lean definition, with the
  external collaborators (asset store fetch, file persistence, the
  Kubernetes client, YAML marshalling) abstracted as explicit inputs.
-/

namespace Installer

/-! ## runTargetCmd (cmd/openshift-install/create.go)

`runTargetCmd` iterates over a target's writable assets.  For each asset it
first calls `assetStore.Fetch(a)` and, on failure, wraps the error with
"failed to fetch <name>" (additionally logging the stderr of an
`exec.ExitError` cause when present).  It then calls
`asset.PersistToFile(a, dir)` unconditionally; a persistence failure is
wrapped with "failed to write asset (<name>) to disk".  When both calls
failed, the persistence error is logged and the fetch error is returned;
when only one failed, that one is returned; otherwise the loop continues
with the next asset. -/

/-- Outcome of `assetStore.Fetch` for one asset: `none` is success; a
failure carries the error message and, when the cause was an
`exec.ExitError` with non-empty stderr, that stderr text. -/
structure FetchFailure where
  msg : String
  exitStderr : Option String
deriving Repr, DecidableEq

/-- One writable asset as `runTargetCmd` sees it: its `Name()` together
with the outcomes its environment would produce for `assetStore.Fetch`
and `asset.PersistToFile` (`none` means the call succeeds). -/
structure TargetAsset where
  name : String
  fetchOutcome : Option FetchFailure
  persistOutcome : Option String
deriving Repr, DecidableEq

/-- Observable result of a `runTargetCmd` invocation: the sequence of
`logrus.Error` lines, the names of assets for which `PersistToFile` was
invoked, and the returned error (`none` is a nil error). -/
structure RunResult where
  logs : List String
  persistAttempts : List String
  returned : Option String
deriving Repr, DecidableEq

/-- The loop body of `runTargetCmd` (create.go lines 135-157), translated
asset by asset.  `Fetch` first; its error is wrapped; `PersistToFile` is
then attempted regardless; a persist error is wrapped, and when a fetch
error is also present the persist error is logged while the fetch error
is returned. -/
def runTargetCmd : List TargetAsset → RunResult
  | [] => ⟨[], [], none⟩
  | a :: rest =>
    let stderrLogs : List String :=
      match a.fetchOutcome with
      | some f =>
        match f.exitStderr with
        | some s => [s]
        | none => []
      | none => []
    let err : Option String :=
      a.fetchOutcome.map (fun f => "failed to fetch " ++ a.name ++ ": " ++ f.msg)
    match a.persistOutcome with
    | some p =>
      let err2 := "failed to write asset (" ++ a.name ++ ") to disk: " ++ p
      match err with
      | some e => ⟨stderrLogs ++ [err2], [a.name], some e⟩
      | none => ⟨stderrLogs, [a.name], some err2⟩
    | none =>
      match err with
      | some e => ⟨stderrLogs, [a.name], some e⟩
      | none =>
        let r := runTargetCmd rest
        ⟨stderrLogs ++ r.logs, a.name :: r.persistAttempts, r.returned⟩

/-- An asset whose fetch and persistence both succeed. -/
def cleanAsset (a : TargetAsset) : Prop :=
  a.fetchOutcome = none ∧ a.persistOutcome = none

instance (a : TargetAsset) : Decidable (cleanAsset a) := by
  unfold cleanAsset; infer_instance

/-! ## The InstallConfig asset (pkg/asset/installconfig/installconfig.go)

`InstallConfig` holds two fields, `Config *types.InstallConfig` and
`File *asset.File`, both nil in a freshly constructed asset.  `Generate`
builds the config from the eight resolved parents, chooses machine-pool
replica counts by platform (panicking on an unknown platform), marshals
the config to YAML and records it as `install-config.yml`.  `Files`
returns the single file when set, an empty slice otherwise.  `Load`
fetches `install-config.yml`, distinguishing absent state from a failing
fetch or an unparsable file, and assigns the receiver's fields only on
success. -/

/-- An `asset.File`: a relative filename plus byte content (bytes are
modelled as a string). -/
structure AssetFile where
  Filename : String
  Data : String
deriving Repr, DecidableEq

/-- One entry of `types.InstallConfig.Machines`; `Replicas` is a
`*int64` that `Generate` always sets. -/
structure MachinePool where
  Name : String
  Replicas : Int
deriving Repr, DecidableEq

/-- The `platform` parent asset: exactly the three platform pointers the
switch in `Generate` inspects; `some` models a non-nil pointer, the
payload standing for the pointed-to platform structure. -/
structure PlatformParent where
  AWS : Option String
  OpenStack : Option String
  Libvirt : Option String
deriving Repr, DecidableEq

/-- The fields of `types.InstallConfig` that `Generate` populates.
Networking defaults (service CIDR `10.3.0.0/16`, one cluster network
`10.2.0.0/16` with host-subnet length 9) are the constants of the
source file. -/
structure TypesInstallConfig where
  Name : String
  ClusterID : String
  AdminEmail : String
  AdminPassword : String
  AdminSSHKey : String
  BaseDomain : String
  NetworkingType : String
  ServiceCIDR : String
  ClusterNetworks : List (String × Nat)
  PullSecret : String
  AWS : Option String := none
  OpenStack : Option String := none
  Libvirt : Option String := none
  Machines : List MachinePool := []
deriving Repr, DecidableEq

/-- The dependency table handed to `InstallConfig.Generate`: the content
of the eight parents listed by `Dependencies()`. -/
structure Parents where
  clusterID : String
  emailAddress : String
  password : String
  sshPublicKey : String
  baseDomain : String
  clusterName : String
  pullSecret : String
  platform : PlatformParent
deriving Repr, DecidableEq

/-- The `InstallConfig` asset state: both fields are nil pointers in a
fresh asset. -/
structure InstallConfigAsset where
  Config : Option TypesInstallConfig
  File : Option AssetFile
deriving Repr, DecidableEq

/-- A freshly constructed `&installconfig.InstallConfig{}`. -/
def emptyInstallConfig : InstallConfigAsset := ⟨none, none⟩

/-- The `installConfigFilename` constant from the source. -/
def installConfigFilename : String := "install-config.yml"

/-- How a call to `Generate` terminates: normally, with a returned
error, or by panicking. -/
inductive GenOutcome
| ok
| genErr (msg : String)
| panicked (msg : String)
deriving Repr, DecidableEq

/-- The base `types.InstallConfig` that `Generate` assigns to `a.Config`
before the platform switch runs. -/
def baseConfig (parents : Parents) : TypesInstallConfig :=
  { Name := parents.clusterName
    ClusterID := parents.clusterID
    AdminEmail := parents.emailAddress
    AdminPassword := parents.password
    AdminSSHKey := parents.sshPublicKey
    BaseDomain := parents.baseDomain
    NetworkingType := "OpenshiftSDN"
    ServiceCIDR := "10.3.0.0/16"
    ClusterNetworks := [("10.2.0.0/16", 9)]
    PullSecret := parents.pullSecret }

/-- The platform switch of `Generate`: in source order, a non-nil AWS,
OpenStack or Libvirt pointer is copied into the config, with
`numberOfMasters`/`numberOfWorkers` left at 3 except for Libvirt where
both become 1; `none` is the `default:` case, in which the Go code
panics. -/
def platformSwitch (base : TypesInstallConfig) (p : PlatformParent) :
    Option (TypesInstallConfig × Int × Int) :=
  if p.AWS.isSome then some ({ base with AWS := p.AWS }, 3, 3)
  else if p.OpenStack.isSome then some ({ base with OpenStack := p.OpenStack }, 3, 3)
  else if p.Libvirt.isSome then some ({ base with Libvirt := p.Libvirt }, 1, 1)
  else none

/-- The `InstallConfig.Generate` method.  The receiver's `Config` is assigned the
base structure, then the platform switch fills in the platform field and
the replica counts — `panic("unknown platform type")` when none of the
three pointers is set — then `Machines` is set, the config is marshalled
(`yamlMarshal` abstracts `yaml.Marshal`; `.error` models a marshalling
failure) and on success `File` is assigned.  Returns the post-state of
the receiver together with the outcome. -/
def InstallConfigGenerate (a : InstallConfigAsset) (parents : Parents)
    (yamlMarshal : TypesInstallConfig → Except String String) :
    InstallConfigAsset × GenOutcome :=
  let base := baseConfig parents
  match platformSwitch base parents.platform with
  | none => ({ a with Config := some base }, .panicked "unknown platform type")
  | some (cfgPlat, numberOfMasters, numberOfWorkers) =>
    let cfg := { cfgPlat with
      Machines := [⟨"master", numberOfMasters⟩, ⟨"worker", numberOfWorkers⟩] }
    match yamlMarshal cfg with
    | .error e =>
      ({ a with Config := some cfg }, .genErr ("failed to Marshal InstallConfig: " ++ e))
    | .ok data =>
      ({ Config := some cfg, File := some ⟨installConfigFilename, data⟩ }, .ok)

/-- The `InstallConfig.Files` method: the one recorded file when `File` is non-nil,
otherwise an empty slice. -/
def InstallConfigFiles (a : InstallConfigAsset) : List AssetFile :=
  match a.File with
  | some f => [f]
  | none => []

/-- Outcome of `FileFetcher.FetchByName`: the file, or an error for
which `os.IsNotExist` holds, or some other fetch error. -/
inductive FetchResult
| ok (file : AssetFile)
| notExist
| fetchErr (msg : String)
deriving Repr, DecidableEq

/-- The `InstallConfig.Load` method.  Fetches `install-config.yml`; an
`os.IsNotExist` failure is `(found := false, err := nil)`, any other
fetch failure is returned as an error, an unparsable file
(`yamlUnmarshal` abstracts `yaml.Unmarshal`) is returned as a wrapped
error, and only on a successful parse are the receiver's `File` and
`Config` assigned and `found := true` returned.  Returns the post-state
of the receiver, `found`, and the error. -/
def InstallConfigLoad (a : InstallConfigAsset)
    (fetchByName : String → FetchResult)
    (yamlUnmarshal : String → Except String TypesInstallConfig) :
    InstallConfigAsset × Bool × Option String :=
  match fetchByName installConfigFilename with
  | .notExist => (a, false, none)
  | .fetchErr msg => (a, false, some msg)
  | .ok file =>
    match yamlUnmarshal file.Data with
    | .error e => (a, false, some ("failed to unmarshal: " ++ e))
    | .ok config => ({ a with File := some file, Config := some config }, true, none)

/-! ## destroyBootstrap: the two sequential waits (create.go lines 182-218)

The function first polls `discovery.ServerVersion()` every 2 seconds
under `apiContext`, a 30-minute timeout derived from the caller's
context; on the first success it cancels `apiContext`, which makes
`wait.Until` return.  `wait.Until` also returns, without any success
check, when the 30 minutes elapse.  Only then is `eventContext` created
— a fresh 30-minute timeout derived from the caller's context, not from
`apiContext` — and the event wait started.

Time is modelled in poll ticks of 2 seconds; `apiUp t` tells whether the
`ServerVersion` call issued at tick `t` succeeds. -/

/-- The API wait: 30 minutes of 2-second poll ticks. -/
def apiTimeoutTicks : Nat := 900

/-- The bootstrap-complete event wait: an independent 30 minutes,
in the same 2-second ticks. -/
def eventTimeoutTicks : Nat := 900

/-- The temporal skeleton of `destroyBootstrap`'s two waits: when the
API poll loop exits and whether it exited on a success, when the event
wait starts, and the absolute deadline of the event wait. -/
structure WaitPhases where
  pollSuccess : Bool
  pollEnd : Nat
  eventStart : Nat
  eventDeadline : Nat
deriving Repr, DecidableEq

/-- The `wait.Until` poll loop: probe at tick `t` and, while fuel (the
remaining ticks before `apiContext`'s deadline) lasts, keep probing
every tick; the result is the tick of the first successful
`ServerVersion` call, or `none` when the deadline exhausts the fuel
first. -/
def pollFirstSuccess (apiUp : Nat → Bool) : Nat → Nat → Option Nat
  | _, 0 => none
  | t, fuel + 1 => if apiUp t then some t else pollFirstSuccess apiUp (t + 1) fuel

/-- The two waits of `destroyBootstrap`.  The poll loop exits at the
first tick whose `ServerVersion` call succeeds (that success cancels
`apiContext`) or, failing that, when `apiContext`'s own 30-minute
deadline expires; in either case the function then proceeds to the event
wait, whose context is given a fresh 30-minute budget counted from that
moment. -/
def destroyBootstrapWaits (apiUp : Nat → Bool) : WaitPhases :=
  let firstUp := pollFirstSuccess apiUp 0 apiTimeoutTicks
  let e := firstUp.getD apiTimeoutTicks
  { pollSuccess := firstUp.isSome
    pollEnd := e
    eventStart := e
    eventDeadline := e + eventTimeoutTicks }

/-- An API that never comes up within the poll window. -/
def apiNeverUp : Nat → Bool := fun _ => false

/-! ## destroyBootstrap: downsampled "still waiting" logging
(create.go lines 189-209)

Each failed `ServerVersion` call decrements `silenceRemaining` and takes
the text after the last `:` of the error as its signature.  If the
signature differs from `previousErrorSuffix` the error is logged and
both state variables reset; otherwise, if `silenceRemaining` reached 0,
the error is logged and the counter resets; otherwise nothing is
logged. -/

/-- The `logDownsample` constant from the source. -/
def logDownsample : Int := 15

/-- The Go signature extraction: `strings.Split(err.Error(), ":")` and
take the last chunk. -/
def errorSuffix (err : String) : String :=
  (err.splitOn ":").getLastD ""

/-- The loop state of the poll's logging logic. -/
structure PollLogState where
  silenceRemaining : Int
  previousErrorSuffix : String
deriving Repr, DecidableEq

/-- State before the first poll iteration. -/
def pollLogInit : PollLogState := ⟨logDownsample, ""⟩

/-- One failed poll iteration: returns the next state and whether the
"Still waiting for the Kubernetes API" line was logged. -/
def pollLogStep (s : PollLogState) (err : String) : PollLogState × Bool :=
  let r := s.silenceRemaining - 1
  let sfx := errorSuffix err
  if s.previousErrorSuffix ≠ sfx then
    (⟨logDownsample, sfx⟩, true)
  else if r = 0 then
    (⟨logDownsample, s.previousErrorSuffix⟩, true)
  else
    (⟨r, s.previousErrorSuffix⟩, false)

/-- Run the logging logic over a sequence of failed poll errors,
collecting the per-iteration log decision. -/
def pollLogRun : PollLogState → List String → List Bool
  | _, [] => []
  | s, e :: es =>
    let (s2, b) := pollLogStep s e
    b :: pollLogRun s2 es

/-- Declarative statement of the rate-limiting rule: the signature of
the most recently logged error (initially the empty string, matching the
code's initial `previousErrorSuffix`), and how many identical signatures
have accumulated since the last log. -/
structure SpecLogState where
  lastLoggedSuffix : String
  identicalSinceLog : Nat
deriving Repr, DecidableEq

/-- Declarative initial state: nothing logged yet. -/
def specLogInit : SpecLogState := ⟨"", 0⟩

/-- Declarative rule: log exactly when the signature differs from the
previously logged one, or when this is the 15th consecutive identical
signature since the last log. -/
def specLogStep (s : SpecLogState) (err : String) : SpecLogState × Bool :=
  let sfx := errorSuffix err
  if sfx ≠ s.lastLoggedSuffix ∨ s.identicalSinceLog + 1 = 15 then
    (⟨sfx, 0⟩, true)
  else
    (⟨s.lastLoggedSuffix, s.identicalSinceLog + 1⟩, false)

/-- Run the declarative rule over a sequence of failed poll errors. -/
def specLogRun : SpecLogState → List String → List Bool
  | _, [] => []
  | s, e :: es =>
    let (s2, b) := specLogStep s e
    b :: specLogRun s2 es

/-! ## destroyBootstrap: the event-watch opener (create.go lines 221-237)

The closure handed to `Until` loops: call `events.Watch`; return the
watcher on success; after a failure, if `eventContext` is done return
the watcher (nil) and that very error, otherwise log a warning, sleep 2
seconds and try again.  `watchResult k` is the outcome of the Watch call
at tick `k` (one tick per 2-second retry interval); `remaining` is the
number of further retries the context deadline still permits after the
current attempt, so the context is done at the failure check exactly
when `remaining = 0`. -/

/-- The fixed delay between Watch attempts, in seconds. -/
def watchRetryDelaySeconds : Nat := 2

/-- What the opener closure returns: a watcher obtained at some attempt,
or — once the deadline has expired — the error of the last Watch
attempt. -/
inductive OpenerResult
| opened (attempt : Nat)
| failed (errMsg : String)
deriving Repr, DecidableEq

/-- The opener's retry loop: attempt `k` with `remaining` retries left
before the deadline. -/
def openerLoop (watchResult : Nat → Except String Unit) : Nat → Nat → OpenerResult
  | k, remaining =>
    match watchResult k with
    | .ok _ => .opened k
    | .error e =>
      match remaining with
      | 0 => .failed e
      | r + 1 => openerLoop watchResult (k + 1) r

/-- The opener closure as invoked by `Until`: start at attempt 0 with a
deadline `d` ticks away (so attempts `0 .. d` can happen, and a failure
at attempt `d` finds the context expired). -/
def openEventStream (watchResult : Nat → Except String Unit) (d : Nat) :
    OpenerResult :=
  openerLoop watchResult 0 d

/-- A Watch endpoint whose connection is always refused. -/
def watchAlwaysRefused : Nat → Except String Unit :=
  fun _ => .error "connection refused"

/-! ## destroyBootstrap: the bootstrap-complete predicate
(create.go lines 238-255)

The condition function handed to `Until` first type-asserts the event's
object to `*corev1.Event` (returning `(false, nil)` when the object is
anything else, e.g. a `*metav1.Status`), then skips `watch.Error` events
with a debug log, then skips anything that is not `watch.Added`, and
finally reports done exactly when the added event's name is
`bootstrap-complete`. -/

/-- The `watch.EventType` enumeration. -/
inductive WatchEventType
| added
| modified
| deleted
| bookmark
| err
deriving Repr, DecidableEq

/-- The object carried by a watch event: a `*corev1.Event` (with its
name and message) or any other runtime object. -/
inductive WatchObject
| coreEvent (name message : String)
| nonEvent
deriving Repr, DecidableEq

/-- A `watch.Event`: its type and its object. -/
structure WatchEvent where
  type : WatchEventType
  object : WatchObject
deriving Repr, DecidableEq

/-- What one predicate call produces: the `(done, err)` pair returned to
`Until` and the debug lines logged on the way. -/
structure PredicateResult where
  done : Bool
  err : Option String
  logs : List String
deriving Repr, DecidableEq

/-- The bootstrap-complete condition function. -/
def bootstrapCompletePredicate (we : WatchEvent) : PredicateResult :=
  match we.object with
  | .nonEvent => ⟨false, none, []⟩
  | .coreEvent name message =>
    if we.type = .err then
      ⟨false, none, ["error " ++ name ++ ": " ++ message]⟩
    else if we.type ≠ .added then
      ⟨false, none, []⟩
    else
      ⟨decide (name = "bootstrap-complete"), none, ["added " ++ name ++ ": " ++ message]⟩

/-! ## Concrete fixtures used by witnesses and counterexamples -/

/-- Whether a `Generate` call terminated with a returned error (as
opposed to terminating normally or panicking). -/
def GenOutcome.isGenErr : GenOutcome → Bool
  | .genErr _ => true
  | _ => false

/-- A resolved dependency table whose platform parent has none of its
three platform pointers set. -/
def unknownPlatformParents : Parents :=
  ⟨"id", "admin@example.com", "pw", "ssh-rsa key", "example.com", "mycluster",
   "pullsecret", ⟨none, none, none⟩⟩

/-- A resolved dependency table for a Libvirt install. -/
def libvirtParents : Parents :=
  ⟨"id", "admin@example.com", "pw", "ssh-rsa key", "example.com", "mycluster",
   "pullsecret", ⟨none, none, some "libvirt"⟩⟩

/-- A YAML marshaller that always succeeds. -/
def marshalOk : TypesInstallConfig → Except String String :=
  fun _ => .ok "yamldata"

/-- A fetcher for an empty install directory: every name is absent. -/
def fetchNothing : String → FetchResult :=
  fun _ => .notExist

/-- An unmarshaller that rejects every input. -/
def unmarshalFail : String → Except String TypesInstallConfig :=
  fun _ => .error "json: cannot unmarshal"

/-- An unmarshaller that accepts every input, producing the unknown
platform base config. -/
def unmarshalConst : String → Except String TypesInstallConfig :=
  fun _ => .ok (baseConfig unknownPlatformParents)

/-- An API whose version query first succeeds at poll tick 5. -/
def apiUpAtFive : Nat → Bool := fun t => t == 5

/-- The simulation relation between the code's logging state and the
declarative rate-limit state: the code's `previousErrorSuffix` is the
last logged signature, and `silenceRemaining` counts down from 15 as
identical signatures accumulate. -/
def logStateRel (s : PollLogState) (t : SpecLogState) : Prop :=
  s.previousErrorSuffix = t.lastLoggedSuffix ∧
  s.silenceRemaining = logDownsample - (t.identicalSinceLog : Int) ∧
  t.identicalSinceLog < 15

/-! ## Helper lemmas: case shapes of Generate and Load -/

theorem platformSwitch_aws (base : TypesInstallConfig) (p : PlatformParent)
    (h : p.AWS.isSome) :
    platformSwitch base p = some ({ base with AWS := p.AWS }, 3, 3) := by
  simp [platformSwitch, h]

theorem platformSwitch_openstack (base : TypesInstallConfig) (p : PlatformParent)
    (h1 : p.AWS = none) (h2 : p.OpenStack.isSome) :
    platformSwitch base p = some ({ base with OpenStack := p.OpenStack }, 3, 3) := by
  simp [platformSwitch, h1, h2]

theorem platformSwitch_libvirt (base : TypesInstallConfig) (p : PlatformParent)
    (h1 : p.AWS = none) (h2 : p.OpenStack = none) (h3 : p.Libvirt.isSome) :
    platformSwitch base p = some ({ base with Libvirt := p.Libvirt }, 1, 1) := by
  simp [platformSwitch, h1, h2, h3]

theorem platformSwitch_none (base : TypesInstallConfig) (p : PlatformParent)
    (h1 : p.AWS = none) (h2 : p.OpenStack = none) (h3 : p.Libvirt = none) :
    platformSwitch base p = none := by
  simp [platformSwitch, h1, h2, h3]

theorem generate_unknown (a : InstallConfigAsset) (parents : Parents)
    (ym : TypesInstallConfig → Except String String)
    (h : platformSwitch (baseConfig parents) parents.platform = none) :
    InstallConfigGenerate a parents ym
      = ({ a with Config := some (baseConfig parents) },
         .panicked "unknown platform type") := by
  simp [InstallConfigGenerate, h]

theorem generate_marshalErr (a : InstallConfigAsset) (parents : Parents)
    (ym : TypesInstallConfig → Except String String)
    (cfgPlat : TypesInstallConfig) (nm nw : Int) (e : String)
    (hps : platformSwitch (baseConfig parents) parents.platform = some (cfgPlat, nm, nw))
    (hm : ym { cfgPlat with Machines := [⟨"master", nm⟩, ⟨"worker", nw⟩] } = .error e) :
    InstallConfigGenerate a parents ym
      = ({ a with Config := some { cfgPlat with Machines := [⟨"master", nm⟩, ⟨"worker", nw⟩] } },
         .genErr ("failed to Marshal InstallConfig: " ++ e)) := by
  simp [InstallConfigGenerate, hps, hm]

theorem generate_marshalOk (a : InstallConfigAsset) (parents : Parents)
    (ym : TypesInstallConfig → Except String String)
    (cfgPlat : TypesInstallConfig) (nm nw : Int) (data : String)
    (hps : platformSwitch (baseConfig parents) parents.platform = some (cfgPlat, nm, nw))
    (hm : ym { cfgPlat with Machines := [⟨"master", nm⟩, ⟨"worker", nw⟩] } = .ok data) :
    InstallConfigGenerate a parents ym
      = ({ Config := some { cfgPlat with Machines := [⟨"master", nm⟩, ⟨"worker", nw⟩] },
           File := some ⟨installConfigFilename, data⟩ },
         .ok) := by
  simp [InstallConfigGenerate, hps, hm]

theorem generate_config_of_switch (a : InstallConfigAsset) (parents : Parents)
    (ym : TypesInstallConfig → Except String String)
    (cfgPlat : TypesInstallConfig) (nm nw : Int)
    (hps : platformSwitch (baseConfig parents) parents.platform = some (cfgPlat, nm, nw)) :
    (InstallConfigGenerate a parents ym).1.Config
      = some { cfgPlat with Machines := [⟨"master", nm⟩, ⟨"worker", nw⟩] } := by
  cases hm : ym { cfgPlat with Machines := [⟨"master", nm⟩, ⟨"worker", nw⟩] } with
  | error e => rw [generate_marshalErr a parents ym cfgPlat nm nw e hps hm]
  | ok data => rw [generate_marshalOk a parents ym cfgPlat nm nw data hps hm]

theorem load_notExist (a : InstallConfigAsset) (fetchByName : String → FetchResult)
    (um : String → Except String TypesInstallConfig)
    (h : fetchByName installConfigFilename = .notExist) :
    InstallConfigLoad a fetchByName um = (a, false, none) := by
  simp [InstallConfigLoad, h]

theorem load_fetchErr (a : InstallConfigAsset) (fetchByName : String → FetchResult)
    (um : String → Except String TypesInstallConfig) (msg : String)
    (h : fetchByName installConfigFilename = .fetchErr msg) :
    InstallConfigLoad a fetchByName um = (a, false, some msg) := by
  simp [InstallConfigLoad, h]

theorem load_parseErr (a : InstallConfigAsset) (fetchByName : String → FetchResult)
    (um : String → Except String TypesInstallConfig) (file : AssetFile) (e : String)
    (hf : fetchByName installConfigFilename = .ok file)
    (hu : um file.Data = .error e) :
    InstallConfigLoad a fetchByName um = (a, false, some ("failed to unmarshal: " ++ e)) := by
  simp [InstallConfigLoad, hf, hu]

theorem load_parseOk (a : InstallConfigAsset) (fetchByName : String → FetchResult)
    (um : String → Except String TypesInstallConfig) (file : AssetFile)
    (config : TypesInstallConfig)
    (hf : fetchByName installConfigFilename = .ok file)
    (hu : um file.Data = .ok config) :
    InstallConfigLoad a fetchByName um
      = ({ a with File := some file, Config := some config }, true, none) := by
  simp [InstallConfigLoad, hf, hu]

theorem installConfigLoad_post_cases
    (a : InstallConfigAsset) (fetchByName : String → FetchResult)
    (yamlUnmarshal : String → Except String TypesInstallConfig) :
    ((InstallConfigLoad a fetchByName yamlUnmarshal).2.1 = false →
      (InstallConfigLoad a fetchByName yamlUnmarshal).1 = a) ∧
    ((InstallConfigLoad a fetchByName yamlUnmarshal).2.1 = true →
      ∃ file config,
        fetchByName installConfigFilename = .ok file ∧
        yamlUnmarshal file.Data = .ok config ∧
        (InstallConfigLoad a fetchByName yamlUnmarshal).1
          = { a with File := some file, Config := some config }) := by
  cases hf : fetchByName installConfigFilename with
  | notExist =>
    rw [load_notExist a fetchByName yamlUnmarshal hf]
    simp
  | fetchErr msg =>
    rw [load_fetchErr a fetchByName yamlUnmarshal msg hf]
    simp
  | ok file =>
    cases hu : yamlUnmarshal file.Data with
    | error e =>
      rw [load_parseErr a fetchByName yamlUnmarshal file e hf hu]
      simp
    | ok config =>
      rw [load_parseOk a fetchByName yamlUnmarshal file config hf hu]
      constructor
      · intro h
        simp at h
      · intro _
        exact ⟨file, config, rfl, hu, rfl⟩

/-! ## Helper lemmas: the API poll, the opener loop, the log limiter -/

theorem pollFirstSuccess_none_iff (apiUp : Nat → Bool) :
    ∀ (fuel t : Nat), pollFirstSuccess apiUp t fuel = none ↔
      ∀ s, t ≤ s → s < t + fuel → apiUp s = false := by
  intro fuel
  induction fuel with
  | zero =>
    intro t
    constructor
    · intro _ s h1 h2
      omega
    · intro _
      rfl
  | succ fuel ih =>
    intro t
    by_cases hup : apiUp t = true
    · simp only [pollFirstSuccess, hup, if_true]
      constructor
      · intro h
        exact absurd h (by simp)
      · intro h
        exact absurd (h t (le_refl t) (by omega)) (by simp [hup])
    · have hup2 : apiUp t = false := by simpa using hup
      simp only [pollFirstSuccess, hup2, Bool.false_eq_true, if_false]
      constructor
      · intro h s h1 h2
        rcases Nat.eq_or_lt_of_le h1 with rfl | hlt
        · exact hup2
        · exact (ih (t + 1)).mp h s hlt (by omega)
      · intro h
        exact (ih (t + 1)).mpr (fun s h1 h2 => h s (by omega) (by omega))

theorem pollFirstSuccess_some (apiUp : Nat → Bool) :
    ∀ (fuel t a : Nat), pollFirstSuccess apiUp t fuel = some a →
      t ≤ a ∧ a < t + fuel ∧ apiUp a = true ∧
        ∀ s, t ≤ s → s < a → apiUp s = false := by
  intro fuel
  induction fuel with
  | zero =>
    intro t a h
    exact absurd h (by simp [pollFirstSuccess])
  | succ fuel ih =>
    intro t a h
    by_cases hup : apiUp t = true
    · simp only [pollFirstSuccess, hup, if_true, Option.some.injEq] at h
      subst h
      exact ⟨le_refl t, by omega, hup, fun s h1 h2 => by omega⟩
    · have hup2 : apiUp t = false := by simpa using hup
      simp only [pollFirstSuccess, hup2, Bool.false_eq_true, if_false] at h
      obtain ⟨h1, h2, h3, h4⟩ := ih (t + 1) a h
      refine ⟨by omega, by omega, h3, ?_⟩
      intro s hs1 hs2
      rcases Nat.eq_or_lt_of_le hs1 with rfl | hlt
      · exact hup2
      · exact h4 s hlt hs2

theorem openerLoop_opened (w : Nat → Except String Unit) (k r : Nat)
    (h : w k = .ok ()) :
    openerLoop w k r = .opened k := by
  rw [openerLoop, h]

theorem openerLoop_retry (w : Nat → Except String Unit) (k r : Nat) (e : String)
    (h : w k = .error e) :
    openerLoop w k (r + 1) = openerLoop w (k + 1) r := by
  rw [openerLoop, h]

theorem openerLoop_expired (w : Nat → Except String Unit) (k : Nat) (e : String)
    (h : w k = .error e) :
    openerLoop w k 0 = .failed e := by
  rw [openerLoop, h]

theorem openerLoop_all_fail (w : Nat → Except String Unit) :
    ∀ (r k : Nat), (∀ j, k ≤ j → j ≤ k + r → ∃ e, w j = .error e) →
      ∃ e, w (k + r) = .error e ∧ openerLoop w k r = .failed e := by
  intro r
  induction r with
  | zero =>
    intro k h
    obtain ⟨e, he⟩ := h k (le_refl k) (by omega)
    exact ⟨e, he, openerLoop_expired w k e he⟩
  | succ r ih =>
    intro k h
    obtain ⟨e, he⟩ := h k (le_refl k) (by omega)
    obtain ⟨e2, he2, hres⟩ := ih (k + 1) (fun j h1 h2 => h j (by omega) (by omega))
    refine ⟨e2, ?_, ?_⟩
    · rw [show k + (r + 1) = k + 1 + r by omega]
      exact he2
    · rw [openerLoop_retry w k r e he]
      exact hres

theorem pollLogStep_rel (s : PollLogState) (t : SpecLogState) (e : String)
    (h : logStateRel s t) :
    (pollLogStep s e).2 = (specLogStep t e).2 ∧
    logStateRel (pollLogStep s e).1 (specLogStep t e).1 := by
  obtain ⟨h1, h2, h3⟩ := h
  by_cases hc : t.lastLoggedSuffix = errorSuffix e
  · have hcode : ¬(s.previousErrorSuffix ≠ errorSuffix e) := by
      rw [h1, hc]
      simp
    by_cases h14 : t.identicalSinceLog = 14
    · have hz : s.silenceRemaining - 1 = 0 := by
        rw [h2, h14]
        norm_num [logDownsample]
      have hstep : pollLogStep s e = (⟨logDownsample, s.previousErrorSuffix⟩, true) := by
        simp only [pollLogStep]
        rw [if_neg hcode, if_pos hz]
      have hspec : specLogStep t e = (⟨errorSuffix e, 0⟩, true) := by
        simp only [specLogStep]
        rw [if_pos (Or.inr (by omega : t.identicalSinceLog + 1 = 15))]
      rw [hstep, hspec]
      refine ⟨rfl, ?_, ?_, ?_⟩
      · show s.previousErrorSuffix = errorSuffix e
        rw [h1, hc]
      · show logDownsample = logDownsample - ((0 : Nat) : Int)
        norm_num
      · show (0 : Nat) < 15
        norm_num
    · have hz : ¬(s.silenceRemaining - 1 = 0) := by
        rw [h2]
        simp only [logDownsample]
        omega
      have hor : ¬(errorSuffix e ≠ t.lastLoggedSuffix ∨ t.identicalSinceLog + 1 = 15) := by
        push_neg
        exact ⟨hc.symm, by omega⟩
      have hstep : pollLogStep s e
          = (⟨s.silenceRemaining - 1, s.previousErrorSuffix⟩, false) := by
        simp only [pollLogStep]
        rw [if_neg hcode, if_neg hz]
      have hspec : specLogStep t e
          = (⟨t.lastLoggedSuffix, t.identicalSinceLog + 1⟩, false) := by
        simp only [specLogStep]
        rw [if_neg hor]
      rw [hstep, hspec]
      refine ⟨rfl, h1, ?_, ?_⟩
      · show s.silenceRemaining - 1 = logDownsample - ((t.identicalSinceLog + 1 : Nat) : Int)
        rw [h2]
        push_cast
        ring
      · show t.identicalSinceLog + 1 < 15
        omega
  · have hcode : s.previousErrorSuffix ≠ errorSuffix e := by
      rw [h1]
      exact hc
    have hstep : pollLogStep s e = (⟨logDownsample, errorSuffix e⟩, true) := by
      simp only [pollLogStep]
      rw [if_pos hcode]
    have hspec : specLogStep t e = (⟨errorSuffix e, 0⟩, true) := by
      simp only [specLogStep]
      rw [if_pos (Or.inl (fun hx => hc hx.symm))]
    rw [hstep, hspec]
    refine ⟨rfl, rfl, ?_, ?_⟩
    · show logDownsample = logDownsample - ((0 : Nat) : Int)
      norm_num
    · show (0 : Nat) < 15
      norm_num

theorem pollLogRun_rel (errs : List String) :
    ∀ (s : PollLogState) (t : SpecLogState), logStateRel s t →
      pollLogRun s errs = specLogRun t errs := by
  induction errs with
  | nil =>
    intro s t _
    rfl
  | cons e es ih =>
    intro s t h
    obtain ⟨hb, hrel⟩ := pollLogStep_rel s t e h
    simp only [pollLogRun, specLogRun]
    rw [hb, ih (pollLogStep s e).1 (specLogStep t e).1 hrel]

/-! ## Theorems -/

/-- C1: for every target asset list, when fetching an asset fails and
the subsequent persistence of that same asset also fails, `runTargetCmd`
logs the (wrapped) persistence error and returns the (wrapped) original
fetch error as the reported cause; persistence is attempted for the
asset even though its fetch failed.  `pre` is the prefix of assets the
loop processes without incident before reaching the failing asset. -/
theorem runTargetCmd_fetch_and_persist_failure
    (pre : List TargetAsset) (a : TargetAsset) (rest : List TargetAsset)
    (f : FetchFailure) (p : String)
    (hpre : ∀ b ∈ pre, cleanAsset b)
    (hf : a.fetchOutcome = some f) (hp : a.persistOutcome = some p) :
    (runTargetCmd (pre ++ a :: rest)).returned
        = some ("failed to fetch " ++ a.name ++ ": " ++ f.msg) ∧
    ("failed to write asset (" ++ a.name ++ ") to disk: " ++ p)
        ∈ (runTargetCmd (pre ++ a :: rest)).logs ∧
    a.name ∈ (runTargetCmd (pre ++ a :: rest)).persistAttempts := by
  induction pre with
  | nil =>
    simp only [List.nil_append]
    refine ⟨?_, ?_, ?_⟩ <;> simp [runTargetCmd, hf, hp]
  | cons b pre ih =>
    obtain ⟨hb1, hb2⟩ := hpre b (List.mem_cons_self b pre)
    have ih2 := ih (fun c hc => hpre c (List.mem_cons_of_mem b hc))
    refine ⟨?_, ?_, ?_⟩ <;>
      simp [runTargetCmd, hb1, hb2, ih2.1, ih2.2.1, ih2.2.2]

/-- Witness for C1: a single target asset whose fetch fails with message
"terraform failed" and whose persistence then fails with "permission
denied"; the fetch error is returned, the persistence error is logged,
and persistence was attempted. -/
theorem runTargetCmd_fetch_and_persist_failure_witness :
    (runTargetCmd [⟨"Cluster", some ⟨"terraform failed", none⟩, some "permission denied"⟩]).returned
        = some ("failed to fetch " ++ "Cluster" ++ ": " ++ "terraform failed") ∧
    ("failed to write asset (" ++ "Cluster" ++ ") to disk: " ++ "permission denied")
        ∈ (runTargetCmd [⟨"Cluster", some ⟨"terraform failed", none⟩, some "permission denied"⟩]).logs ∧
    "Cluster" ∈ (runTargetCmd [⟨"Cluster", some ⟨"terraform failed", none⟩, some "permission denied"⟩]).persistAttempts :=
  runTargetCmd_fetch_and_persist_failure [] ⟨"Cluster", some ⟨"terraform failed", none⟩, some "permission denied"⟩ []
    ⟨"terraform failed", none⟩ "permission denied"
    (by intro b hb; exact absurd hb (List.not_mem_nil b)) rfl rfl

/-- C3 counterexample: on a dependency table whose platform is none of
AWS, OpenStack or Libvirt, `InstallConfig.Generate` does not fail with a
returned generation error — it panics (`panic("unknown platform
type")`), so the claim that an unknown platform variant is "a generation
failure that propagates to the caller, not a crash" is false on the
code. -/
theorem installConfigGenerate_unknown_platform_counterexample :
    (InstallConfigGenerate emptyInstallConfig unknownPlatformParents marshalOk).2
      = .panicked "unknown platform type" ∧
    GenOutcome.isGenErr
      (InstallConfigGenerate emptyInstallConfig unknownPlatformParents marshalOk).2
      = false :=
  ⟨rfl, rfl⟩

/-- C3 (amended): for every dependency table whose platform is none of
AWS, OpenStack or Libvirt, `InstallConfig.Generate` panics with
"unknown platform type" — a crash, not an error returned to the
caller. -/
theorem installConfigGenerate_unknown_platform_panics
    (a : InstallConfigAsset) (parents : Parents)
    (yamlMarshal : TypesInstallConfig → Except String String)
    (h1 : parents.platform.AWS = none) (h2 : parents.platform.OpenStack = none)
    (h3 : parents.platform.Libvirt = none) :
    (InstallConfigGenerate a parents yamlMarshal).2
      = .panicked "unknown platform type" := by
  rw [generate_unknown a parents yamlMarshal
    (platformSwitch_none (baseConfig parents) parents.platform h1 h2 h3)]

/-- Witness for C3 (amended): the concrete no-platform table makes
`Generate` panic. -/
theorem installConfigGenerate_unknown_platform_panics_witness :
    (InstallConfigGenerate emptyInstallConfig unknownPlatformParents marshalOk).2
      = .panicked "unknown platform type" :=
  installConfigGenerate_unknown_platform_panics emptyInstallConfig
    unknownPlatformParents marshalOk rfl rfl rfl

/-- C4: for every file fetcher (and unmarshaller), `InstallConfig.Load`
returns `found = false` with a nil error when `install-config.yml` does
not exist, and returns a non-nil error exactly when prior state exists
but is malformed: the fetch fails for a reason other than absence, or
the fetched file fails to parse.  A malformed-state error is surfaced,
never converted into a silent not-found. -/
theorem installConfigLoad_error_iff_malformed
    (a : InstallConfigAsset) (fetchByName : String → FetchResult)
    (yamlUnmarshal : String → Except String TypesInstallConfig) :
    (fetchByName installConfigFilename = .notExist →
      InstallConfigLoad a fetchByName yamlUnmarshal = (a, false, none)) ∧
    ((InstallConfigLoad a fetchByName yamlUnmarshal).2.2 ≠ none ↔
      ((∃ msg, fetchByName installConfigFilename = .fetchErr msg) ∨
       (∃ file e, fetchByName installConfigFilename = .ok file ∧
          yamlUnmarshal file.Data = .error e))) := by
  constructor
  · intro h
    exact load_notExist a fetchByName yamlUnmarshal h
  · cases hf : fetchByName installConfigFilename with
    | notExist =>
      rw [load_notExist a fetchByName yamlUnmarshal hf]
      simp [hf]
    | fetchErr msg =>
      rw [load_fetchErr a fetchByName yamlUnmarshal msg hf]
      simp [hf]
    | ok file =>
      cases hu : yamlUnmarshal file.Data with
      | error e =>
        rw [load_parseErr a fetchByName yamlUnmarshal file e hf hu]
        simp [hf, hu]
      | ok config =>
        rw [load_parseOk a fetchByName yamlUnmarshal file config hf hu]
        simp [hf, hu]

/-- Witness for C4: over an empty install directory `Load` reports
not-found without an error. -/
theorem installConfigLoad_error_iff_malformed_witness :
    InstallConfigLoad emptyInstallConfig fetchNothing unmarshalFail
      = (emptyInstallConfig, false, none) :=
  (installConfigLoad_error_iff_malformed emptyInstallConfig fetchNothing
    unmarshalFail).1 rfl

/-- C9: whenever `InstallConfig.Load` returns `found = false` — with or
without an error — the receiver's `Config` and `File` fields are left
unchanged; they are assigned exactly on the `found = true` success
path. -/
theorem installConfigLoad_assigns_only_on_found
    (a : InstallConfigAsset) (fetchByName : String → FetchResult)
    (yamlUnmarshal : String → Except String TypesInstallConfig) :
    ((InstallConfigLoad a fetchByName yamlUnmarshal).2.1 = false →
      (InstallConfigLoad a fetchByName yamlUnmarshal).1 = a) ∧
    ((InstallConfigLoad a fetchByName yamlUnmarshal).2.1 = true →
      ∃ file config,
        fetchByName installConfigFilename = .ok file ∧
        yamlUnmarshal file.Data = .ok config ∧
        (InstallConfigLoad a fetchByName yamlUnmarshal).1
          = { a with File := some file, Config := some config }) :=
  installConfigLoad_post_cases a fetchByName yamlUnmarshal

/-- Witness for C9: over an empty install directory `Load` leaves the
receiver untouched. -/
theorem installConfigLoad_assigns_only_on_found_witness :
    (InstallConfigLoad emptyInstallConfig fetchNothing unmarshalConst).1
      = emptyInstallConfig :=
  (installConfigLoad_assigns_only_on_found emptyInstallConfig fetchNothing
    unmarshalConst).1 rfl

/-- C8: `InstallConfig.Files` returns the empty list before a successful
`Generate` or `Load` has populated the asset — on the fresh asset, and
still after a `Generate` or `Load` that did not succeed — and returns
exactly one output file after a successful `Generate` or `Load`. -/
theorem installConfigFiles_empty_before_one_after :
    InstallConfigFiles emptyInstallConfig = [] ∧
    (∀ (parents : Parents) (ym : TypesInstallConfig → Except String String),
      (InstallConfigGenerate emptyInstallConfig parents ym).2 ≠ .ok →
      InstallConfigFiles (InstallConfigGenerate emptyInstallConfig parents ym).1 = []) ∧
    (∀ (fetchByName : String → FetchResult)
       (um : String → Except String TypesInstallConfig),
      (InstallConfigLoad emptyInstallConfig fetchByName um).2.1 = false →
      InstallConfigFiles (InstallConfigLoad emptyInstallConfig fetchByName um).1 = []) ∧
    (∀ (a : InstallConfigAsset) (parents : Parents)
       (ym : TypesInstallConfig → Except String String),
      (InstallConfigGenerate a parents ym).2 = .ok →
      ∃ file, InstallConfigFiles (InstallConfigGenerate a parents ym).1 = [file]) ∧
    (∀ (a : InstallConfigAsset) (fetchByName : String → FetchResult)
       (um : String → Except String TypesInstallConfig),
      (InstallConfigLoad a fetchByName um).2.1 = true →
      ∃ file, InstallConfigFiles (InstallConfigLoad a fetchByName um).1 = [file]) := by
  refine ⟨rfl, ?_, ?_, ?_, ?_⟩
  · intro parents ym h
    cases hps : platformSwitch (baseConfig parents) parents.platform with
    | none =>
      rw [generate_unknown emptyInstallConfig parents ym hps]
      rfl
    | some v =>
      obtain ⟨cfgPlat, nm, nw⟩ := v
      cases hm : ym { cfgPlat with Machines := [⟨"master", nm⟩, ⟨"worker", nw⟩] } with
      | error e =>
        rw [generate_marshalErr emptyInstallConfig parents ym cfgPlat nm nw e hps hm]
        rfl
      | ok data =>
        rw [generate_marshalOk emptyInstallConfig parents ym cfgPlat nm nw data hps hm] at h
        simp at h
  · intro fetchByName um h
    have := (installConfigLoad_post_cases emptyInstallConfig fetchByName um).1 h
    rw [this]
    rfl
  · intro a parents ym h
    cases hps : platformSwitch (baseConfig parents) parents.platform with
    | none =>
      rw [generate_unknown a parents ym hps] at h
      simp at h
    | some v =>
      obtain ⟨cfgPlat, nm, nw⟩ := v
      cases hm : ym { cfgPlat with Machines := [⟨"master", nm⟩, ⟨"worker", nw⟩] } with
      | error e =>
        rw [generate_marshalErr a parents ym cfgPlat nm nw e hps hm] at h
        simp at h
      | ok data =>
        refine ⟨⟨installConfigFilename, data⟩, ?_⟩
        rw [generate_marshalOk a parents ym cfgPlat nm nw data hps hm]
        rfl
  · intro a fetchByName um h
    obtain ⟨file, config, _, _, hpost⟩ :=
      (installConfigLoad_post_cases a fetchByName um).2 h
    exact ⟨file, by rw [hpost]; rfl⟩

/-- Witness for C8: a successful Libvirt `Generate` yields exactly one
file. -/
theorem installConfigFiles_empty_before_one_after_witness :
    InstallConfigFiles emptyInstallConfig = [] ∧
    ∃ file,
      InstallConfigFiles
        (InstallConfigGenerate emptyInstallConfig libvirtParents marshalOk).1 = [file] :=
  ⟨installConfigFiles_empty_before_one_after.1,
   installConfigFiles_empty_before_one_after.2.2.2.1 emptyInstallConfig
     libvirtParents marshalOk rfl⟩

/-- C10: for every dependency table with a known platform (exactly one
of the three platform pointers set), `InstallConfig.Generate` produces a
config whose `Machines` list is exactly the two pools named "master"
then "worker", in that order, with replica counts 1 and 1 for Libvirt
and 3 and 3 for AWS or OpenStack. -/
theorem installConfigGenerate_machine_pools
    (a : InstallConfigAsset) (parents : Parents)
    (ym : TypesInstallConfig → Except String String) :
    (∀ x, parents.platform = ⟨some x, none, none⟩ →
      ∃ cfg, (InstallConfigGenerate a parents ym).1.Config = some cfg ∧
        cfg.Machines = [⟨"master", 3⟩, ⟨"worker", 3⟩]) ∧
    (∀ x, parents.platform = ⟨none, some x, none⟩ →
      ∃ cfg, (InstallConfigGenerate a parents ym).1.Config = some cfg ∧
        cfg.Machines = [⟨"master", 3⟩, ⟨"worker", 3⟩]) ∧
    (∀ x, parents.platform = ⟨none, none, some x⟩ →
      ∃ cfg, (InstallConfigGenerate a parents ym).1.Config = some cfg ∧
        cfg.Machines = [⟨"master", 1⟩, ⟨"worker", 1⟩]) := by
  refine ⟨?_, ?_, ?_⟩
  · intro x h
    have hps := platformSwitch_aws (baseConfig parents) parents.platform (by rw [h]; rfl)
    exact ⟨_, generate_config_of_switch a parents ym _ 3 3 hps, rfl⟩
  · intro x h
    have hps := platformSwitch_openstack (baseConfig parents) parents.platform
      (by rw [h]) (by rw [h]; rfl)
    exact ⟨_, generate_config_of_switch a parents ym _ 3 3 hps, rfl⟩
  · intro x h
    have hps := platformSwitch_libvirt (baseConfig parents) parents.platform
      (by rw [h]) (by rw [h]) (by rw [h]; rfl)
    exact ⟨_, generate_config_of_switch a parents ym _ 1 1 hps, rfl⟩

/-- Witness for C10: the concrete Libvirt table yields master and worker
pools with one replica each. -/
theorem installConfigGenerate_machine_pools_witness :
    ∃ cfg,
      (InstallConfigGenerate emptyInstallConfig libvirtParents marshalOk).1.Config
        = some cfg ∧
      cfg.Machines = [⟨"master", 1⟩, ⟨"worker", 1⟩] :=
  (installConfigGenerate_machine_pools emptyInstallConfig libvirtParents
    marshalOk).2.2 "libvirt" rfl

/-- C2 counterexample: when the API never reports up, the reachability
poll exits at its own 30-minute deadline without success
(`pollSuccess = false`) and the wait for the bootstrap-complete event
nevertheless begins (at tick 900, the expired API deadline).  This
refutes "the wait for the bootstrap-complete event begins only after the
API reachability poll reports success": the code proceeds to the event
wait whether or not the poll succeeded. -/
theorem destroyBootstrapWaits_counterexample :
    (destroyBootstrapWaits apiNeverUp).pollSuccess = false ∧
    (destroyBootstrapWaits apiNeverUp).eventStart = apiTimeoutTicks ∧
    (destroyBootstrapWaits apiNeverUp).eventDeadline
      = apiTimeoutTicks + eventTimeoutTicks := by
  have hnone : pollFirstSuccess apiNeverUp 0 apiTimeoutTicks = none :=
    (pollFirstSuccess_none_iff apiNeverUp apiTimeoutTicks 0).mpr
      (fun s _ _ => rfl)
  refine ⟨?_, ?_, ?_⟩ <;> simp [destroyBootstrapWaits, hnone]

/-- C2 (amended): in `destroyBootstrap` the wait for the
bootstrap-complete event begins exactly when the API reachability poll
terminates — at the first tick whose version query succeeds, or at the
poll's own 30-minute deadline when no query ever succeeds — and each of
the two waits owns an independently-scoped 30-minute deadline: the
event wait's deadline is a full `eventTimeoutTicks` after its start, no
matter how much of the first wait's budget was consumed. -/
theorem destroyBootstrapWaits_sequencing (apiUp : Nat → Bool) :
    (destroyBootstrapWaits apiUp).eventStart = (destroyBootstrapWaits apiUp).pollEnd ∧
    (destroyBootstrapWaits apiUp).eventDeadline
      = (destroyBootstrapWaits apiUp).eventStart + eventTimeoutTicks ∧
    ((destroyBootstrapWaits apiUp).pollSuccess = true ↔
      ∃ t, t < apiTimeoutTicks ∧ apiUp t = true) ∧
    ((destroyBootstrapWaits apiUp).pollSuccess = true →
      apiUp (destroyBootstrapWaits apiUp).pollEnd = true ∧
      (destroyBootstrapWaits apiUp).pollEnd < apiTimeoutTicks ∧
      ∀ s < (destroyBootstrapWaits apiUp).pollEnd, apiUp s = false) ∧
    ((destroyBootstrapWaits apiUp).pollSuccess = false →
      (destroyBootstrapWaits apiUp).pollEnd = apiTimeoutTicks) := by
  cases hp : pollFirstSuccess apiUp 0 apiTimeoutTicks with
  | none =>
    have hall := (pollFirstSuccess_none_iff apiUp apiTimeoutTicks 0).mp hp
    refine ⟨?_, ?_, ?_, ?_, ?_⟩ <;> simp [destroyBootstrapWaits, hp]
    intro t ht
    exact hall t (Nat.zero_le t) (by omega)
  | some a =>
    obtain ⟨h1, h2, h3, h4⟩ := pollFirstSuccess_some apiUp apiTimeoutTicks 0 a hp
    refine ⟨?_, ?_, ?_, ?_, ?_⟩ <;> simp [destroyBootstrapWaits, hp]
    · exact ⟨a, by omega, h3⟩
    · exact ⟨h3, by omega, fun s hs => h4 s (Nat.zero_le s) hs⟩

/-- Witness for C2 (amended): with an API that first responds at tick 5,
the poll succeeds, ends at tick 5 (with no earlier success), and the
event wait's deadline is 905. -/
theorem destroyBootstrapWaits_sequencing_witness :
    apiUpAtFive (destroyBootstrapWaits apiUpAtFive).pollEnd = true ∧
    (destroyBootstrapWaits apiUpAtFive).pollEnd < apiTimeoutTicks ∧
    ∀ s < (destroyBootstrapWaits apiUpAtFive).pollEnd, apiUpAtFive s = false :=
  (destroyBootstrapWaits_sequencing apiUpAtFive).2.2.2.1 rfl

/-- C5 counterexample: a stream-level `watch.Error` event whose object
is not a `*corev1.Event` (the usual case: error events carry a
`*metav1.Status`) is skipped with `done = false` and a nil error but is
NOT logged — the type assertion fails before the Error branch's debug
log is reached.  This refutes the claim that every stream-level Error
event is logged. -/
theorem bootstrapCompletePredicate_counterexample :
    bootstrapCompletePredicate ⟨.err, .nonEvent⟩
      = ⟨false, none, []⟩ := rfl

/-- C5 (amended): the predicate reports `done = true` iff the event is
an Added event whose object is a core Event named exactly
"bootstrap-complete"; it never returns an error; a stream-level Error
event yields `done = false` (with the nil error, so the watch loop
neither stops nor reconnects because of it) and is logged when its
object is a core Event but skipped silently when it is not. -/
theorem bootstrapCompletePredicate_spec (we : WatchEvent) :
    ((bootstrapCompletePredicate we).done = true ↔
      (we.type = .added ∧ ∃ m, we.object = .coreEvent "bootstrap-complete" m)) ∧
    (bootstrapCompletePredicate we).err = none ∧
    (we.type = .err → (bootstrapCompletePredicate we).done = false) ∧
    (∀ n m, we.type = .err → we.object = .coreEvent n m →
      (bootstrapCompletePredicate we).logs = ["error " ++ n ++ ": " ++ m]) ∧
    (we.type = .err → we.object = .nonEvent →
      (bootstrapCompletePredicate we).logs = []) := by
  obtain ⟨ty, obj⟩ := we
  cases obj <;> cases ty <;>
    simp [bootstrapCompletePredicate, eq_comm]

/-- Witness for C5 (amended): an Error event that does carry a core
Event is logged with the "error" prefix. -/
theorem bootstrapCompletePredicate_spec_witness :
    (bootstrapCompletePredicate ⟨.err, .coreEvent "etcd" "failure"⟩).logs
      = ["error " ++ "etcd" ++ ": " ++ "failure"] :=
  (bootstrapCompletePredicate_spec ⟨.err, .coreEvent "etcd" "failure"⟩).2.2.2.1
    "etcd" "failure" rfl rfl

/-- C6 counterexample: with a Watch endpoint whose connection is always
refused and a deadline 3 retry ticks away, the opener returns the
transport error itself ("connection refused"), not a timeout error.
This refutes "once the deadline expires it fails with a timeout error
rather than surfacing the transient transport error directly": the code
returns `watcher, err` — the most recent Watch error — when
`eventContext` is done. -/
theorem openEventStream_counterexample :
    openEventStream watchAlwaysRefused 3 = .failed "connection refused" := rfl

/-- C6 (amended): while the deadline has not expired, a failed Watch
attempt is retried (after the fixed 2-second delay, one attempt per
tick); a Watch success at any attempt returns that watcher; and when
every attempt up to the deadline fails, the opener fails with the
transport error of the attempt at the deadline — the most recent Watch
error — rather than a timeout error. -/
theorem openEventStream_retry_until_deadline
    (w : Nat → Except String Unit) (d : Nat) :
    (∀ k r e, w k = .error e → openerLoop w k (r + 1) = openerLoop w (k + 1) r) ∧
    (∀ k r, w k = .ok () → openerLoop w k r = .opened k) ∧
    ((∀ j, j ≤ d → ∃ e, w j = .error e) →
      ∃ e, w d = .error e ∧ openEventStream w d = .failed e) := by
  refine ⟨?_, ?_, ?_⟩
  · intro k r e h
    exact openerLoop_retry w k r e h
  · intro k r h
    exact openerLoop_opened w k r h
  · intro h
    obtain ⟨e, he, hres⟩ := openerLoop_all_fail w d 0 (fun j _ hj => h j (by omega))
    refine ⟨e, ?_, ?_⟩
    · rw [show d = 0 + d by omega]
      exact he
    · exact hres

/-- Witness for C6 (amended): with every connection refused and the
deadline 2 ticks away, the opener fails with the transport error of the
final attempt. -/
theorem openEventStream_retry_until_deadline_witness :
    ∃ e, watchAlwaysRefused 2 = .error e ∧
      openEventStream watchAlwaysRefused 2 = .failed e :=
  (openEventStream_retry_until_deadline watchAlwaysRefused 2).2.2
    (fun _ _ => ⟨"connection refused", rfl⟩)

/-- C7: over every sequence of failed version queries, the code's
"still waiting" log decisions (starting from `silenceRemaining = 15`,
`previousErrorSuffix = ""`) coincide pointwise with the declarative
rate-limit rule: log exactly when the error's signature — the text after
the last colon — differs from the previously logged one (initially the
empty string), or when 15 consecutive identical signatures have
accumulated since the last log; otherwise the repeat is silent. -/
theorem pollLogging_matches_rate_limit_rule (errs : List String) :
    pollLogRun pollLogInit errs = specLogRun specLogInit errs :=
  pollLogRun_rel errs pollLogInit specLogInit
    ⟨rfl, by norm_num [pollLogInit, specLogInit, logDownsample],
     by norm_num [specLogInit]⟩

/-- Witness for C7: a concrete trace — two identical signatures, a
change, then another repeat — logs at the first query and at the
change, under both the code and the rule. -/
theorem pollLogging_matches_rate_limit_rule_witness :
    pollLogRun pollLogInit
        ["dial tcp: connection refused", "dial tcp: connection refused",
         "dial tcp: no route to host", "dial tcp: no route to host"]
      = specLogRun specLogInit
        ["dial tcp: connection refused", "dial tcp: connection refused",
         "dial tcp: no route to host", "dial tcp: no route to host"] :=
  pollLogging_matches_rate_limit_rule
    ["dial tcp: connection refused", "dial tcp: connection refused",
     "dial tcp: no route to host", "dial tcp: no route to host"]

end Installer
